import Mathlib

/-!
Verification of the recaptcha-v2-solver repository's challenge-state watcher
and solving loops, as a shallow embedding of the JavaScript source
(src/unnamed/part_000).  Pure data transformations are translated directly;
the browser, the vision/speech services and the page DOM are modelled as
explicit environment inputs (one entry per poll iteration / external call),
exactly as the source consumes them.
-/

namespace RecaptchaSolver

/-! ## ChallengeObserver: snapshots and change detection
Embeds `CaptchaWatcher._checkIfChallengeChanged`, `_updateCurrentChallenge`
and the event-dispatch step of `_pollForChallengeFrame` (part_000 lines
284-343).  A challenge read (`challengeInfo`) carries the full prompt text
and the ordered tile image-URL list; the watcher state stores the last
delivered text and URL list (JS `null` is modelled by `Option.none`). -/

structure ChallengeInfo where
  text : String
  imageUrls : Option (List String)
deriving Repr, DecidableEq

structure WatcherState where
  currentChallengeText : Option String
  currentImageUrls : Option (List String)
deriving Repr, DecidableEq

/-- `_checkIfChallengeChanged` (lines 322-338): changed when the stored text
differs from the new text, when either URL list is JS-falsy (`null`; an empty
array is truthy and is not falsy), when the lengths differ, or when any
position differs. -/
def checkIfChallengeChanged (s : WatcherState) (info : ChallengeInfo) : Bool :=
  if s.currentChallengeText ≠ some info.text then true
  else
    match s.currentImageUrls, info.imageUrls with
    | none, _ => true
    | some _, none => true
    | some cur, some nw =>
      if cur.length ≠ nw.length then true
      else (cur.zip nw).any fun p => p.1 != p.2

/-- `_updateCurrentChallenge` (lines 340-343). -/
def updateCurrentChallenge (info : ChallengeInfo) : WatcherState :=
  { currentChallengeText := some info.text, currentImageUrls := info.imageUrls }

/-- JS truthiness test used by `if (!this.currentChallengeText)` (line 294):
`null` and the empty string are falsy. -/
def textIsFalsy : Option String → Bool
  | none => true
  | some t => t == ""

inductive WatcherEvent where
  | tilesReady (info : ChallengeInfo)
  | challengeOpen (info : ChallengeInfo)
  | challengeChange (info : ChallengeInfo)
deriving Repr, DecidableEq

/-- The event-dispatch step of `_pollForChallengeFrame` for one successful
challenge read (lines 284-308): `onTilesReady` always fires first; then, if
the stored challenge text is falsy, the snapshot is stored and
`onChallengeOpen` fires; otherwise, if `_checkIfChallengeChanged`, the
snapshot is stored and `onChallengeChange` fires. -/
def processChallengeInfo (s : WatcherState) (info : ChallengeInfo) :
    List WatcherEvent × WatcherState :=
  let hasChanged := checkIfChallengeChanged s info
  if textIsFalsy s.currentChallengeText then
    ([.tilesReady info, .challengeOpen info], updateCurrentChallenge info)
  else if hasChanged then
    ([.tilesReady info, .challengeChange info], updateCurrentChallenge info)
  else
    ([.tilesReady info], s)

/-- Two equal-length lists have no pointwise mismatch iff they are equal. -/
theorem zip_any_bne_eq_false_iff :
    ∀ (as bs : List String), as.length = bs.length →
      ((((as.zip bs).any fun p => p.1 != p.2) = false) ↔ as = bs)
  | [], [], _ => by simp
  | [], _ :: _, h => by simp at h
  | _ :: _, [], h => by simp at h
  | a :: as, b :: bs, h => by
    have ih := zip_any_bne_eq_false_iff as bs (by simpa using h)
    simp only [List.zip_cons_cons, List.any_cons, Bool.or_eq_false_iff,
      bne_eq_false_iff_eq, List.cons.injEq]
    constructor
    · rintro ⟨h1, h2⟩
      exact ⟨h1, ih.mp h2⟩
    · rintro ⟨h1, h2⟩
      exact ⟨h1, ih.mpr h2⟩

theorem checkIfChallengeChanged_eq_false_iff (s : WatcherState) (info : ChallengeInfo) :
    checkIfChallengeChanged s info = false ↔
      s.currentChallengeText = some info.text ∧
        ∃ urls, s.currentImageUrls = some urls ∧ info.imageUrls = some urls := by
  unfold checkIfChallengeChanged
  by_cases ht : s.currentChallengeText = some info.text
  · simp only [ht, ne_eq, not_true_eq_false, if_false, true_and]
    rcases hcur : s.currentImageUrls with _ | cur
    · simp
    · rcases hnew : info.imageUrls with _ | nw
      · simp
      · by_cases hlen : cur.length = nw.length
        · simp only [hlen, ne_eq, not_true_eq_false, if_false]
          rw [zip_any_bne_eq_false_iff cur nw hlen]
          constructor
          · rintro rfl; exact ⟨cur, rfl, rfl⟩
          · rintro ⟨urls, hu, hv⟩
            cases hu; cases hv; rfl
        · simp only [ne_eq, hlen, not_false_eq_true, if_true, Bool.true_eq_false,
            false_iff]
          rintro ⟨urls, hu, hv⟩
          cases hu; cases hv; exact hlen rfl
  · simp [ne_eq, ht]

/-- Claim C1 (amended): the observer's change test judges two snapshots equal
iff the prompt text is the same AND both image-reference lists are present AND
they are equal as sequences (same length and every position matching); and
whenever the new read differs from the stored snapshot in any of these ways
(including either side's image list being missing), provided the stored prompt
text is non-empty, the observer fires onChallengeChange with the new read and
replaces the stored snapshot.  (When the stored prompt text is the empty
string, JS falsiness makes the watcher treat it as no prior snapshot and fire
onChallengeOpen instead; see the counterexample.) -/
theorem claim_C1_challenge_change (s : WatcherState) (info : ChallengeInfo) :
    (checkIfChallengeChanged s info = false ↔
      s.currentChallengeText = some info.text ∧
        ∃ urls, s.currentImageUrls = some urls ∧ info.imageUrls = some urls) ∧
    (∀ t, s.currentChallengeText = some t → t ≠ "" →
      checkIfChallengeChanged s info = true →
      processChallengeInfo s info =
        ([.tilesReady info, .challengeChange info], updateCurrentChallenge info)) := by
  refine ⟨checkIfChallengeChanged_eq_false_iff s info, ?_⟩
  intro t hst ht hchanged
  unfold processChallengeInfo
  have hfalsy : textIsFalsy s.currentChallengeText = false := by
    rw [hst]
    simpa [textIsFalsy] using ht
  simp [hfalsy, hchanged]

/-- Claim C1 counterexample: with a stored snapshot whose prompt text is the
empty string, a differing new read (the change test reports changed) fires
onChallengeOpen, not onChallengeChange, refuting the claim as stated. -/
theorem claim_C1_counterexample :
    checkIfChallengeChanged
        ⟨some "", some ["tileA.jpg"]⟩
        ⟨"Select all images with cars", some ["tileB.jpg"]⟩ = true ∧
    (processChallengeInfo
        ⟨some "", some ["tileA.jpg"]⟩
        ⟨"Select all images with cars", some ["tileB.jpg"]⟩).1 =
      [.tilesReady ⟨"Select all images with cars", some ["tileB.jpg"]⟩,
       .challengeOpen ⟨"Select all images with cars", some ["tileB.jpg"]⟩] :=
  ⟨rfl, rfl⟩

/-- Witness for claim C1 at a concrete stored snapshot and new read. -/
theorem claim_C1_witness :
    processChallengeInfo
        ⟨some "Select all images with cars", some ["u1.jpg"]⟩
        ⟨"Select all images with buses", some ["u2.jpg"]⟩ =
      ([.tilesReady ⟨"Select all images with buses", some ["u2.jpg"]⟩,
        .challengeChange ⟨"Select all images with buses", some ["u2.jpg"]⟩],
       updateCurrentChallenge ⟨"Select all images with buses", some ["u2.jpg"]⟩) :=
  (claim_C1_challenge_change
      ⟨some "Select all images with cars", some ["u1.jpg"]⟩
      ⟨"Select all images with buses", some ["u2.jpg"]⟩).2
    "Select all images with cars" rfl (by decide) (by decide)

/-! ## SolverProtocol, visual variant
Embeds `solveCaptchaChallenge` / `handleCheckboxClick` / `solveChallengeLoop`
/ `verifyChallenge` (part_000 lines 630-975).  The page/DOM and external
services are modelled as environment inputs: each challenge round reads one
`RoundEnv`, and each `verifyChallenge` invocation consumes one entry of a
finite trace of post-verify race outcomes (the 5s-timeout race guarantees one
outcome per invocation; an exhausted trace stands for a timeout). -/

/-- Outcome of the `Promise.race` after clicking the verify button
(lines 948-952): a token, a changed challenge (carrying whether the new
challenge has the correct format and whether the subsequent
`handleChallengeTiles` on it succeeds), or the fixed 5s timeout. -/
inductive VerifyRace where
  | token (tok : String)
  | newChallenge (hasCorrectFormat : Bool) (tilesSuccess : Bool)
  | timeout
deriving Repr, DecidableEq

/-- Environment for one `verifyChallenge` invocation: whether the frame is
present and the tiles-ready wait succeeds within 10s, whether the verify
button is enabled and the prompt still well-formed (`shouldVerify`,
lines 921-931), and the post-click race outcome. -/
structure VerifyEnv where
  tilesReadyOk : Bool
  shouldVerify : Bool
  race : VerifyRace
deriving Repr, DecidableEq

/-- `verifyChallenge` (lines 892-975).  Recursion on a new challenge
(lines 955-973) consumes the rest of the trace. -/
def verifyChallenge : List VerifyEnv → Option String
  | [] => none
  | e :: rest =>
    if ¬ e.tilesReadyOk then none
    else if ¬ e.shouldVerify then none
    else
      match e.race with
      | .token tok => some tok
      | .timeout => none
      | .newChallenge hasCorrectFormat tilesSuccess =>
        if ¬ hasCorrectFormat then none
        else if ¬ tilesSuccess then none
        else verifyChallenge rest

/-- Environment for one iteration of the round loop: whether
`getCurrentChallenge` returns a valid (correct-format) challenge, whether
`handleChallengeTiles` succeeds, and the trace driving `verifyChallenge`. -/
structure RoundEnv where
  challengeOk : Bool
  tilesOk : Bool
  verifyTrace : List VerifyEnv

/-- The token a single round loop iteration produces, following the
control flow of lines 725-746: an invalid challenge or failed tile handling
skips verification. -/
def roundToken (e : RoundEnv) : Option String :=
  if ¬ e.challengeOk then none
  else if ¬ e.tilesOk then none
  else verifyChallenge e.verifyTrace

def maxAttempts : Nat := 4

/-- `solveChallengeLoop` (lines 721-751), parameterized over the attempt
counter: `while (attempts < maxAttempts)`, each pass consuming the
environment of round `attempts`; a round without a token increments
`attempts` and continues; after the loop, null.  The second component is the
number of round iterations performed. -/
def solveChallengeLoopFrom (env : Nat → RoundEnv) (attempts : Nat) :
    Option String × Nat :=
  if _h : attempts < maxAttempts then
    match roundToken (env attempts) with
    | some tok => (some tok, attempts + 1)
    | none => solveChallengeLoopFrom env (attempts + 1)
  else (none, attempts)
termination_by maxAttempts - attempts
decreasing_by simp_wf; omega

def solveChallengeLoop (env : Nat → RoundEnv) : Option String × Nat :=
  solveChallengeLoopFrom env 0

theorem solveChallengeLoopFrom_snd_le (env : Nat → RoundEnv) :
    ∀ k attempts, maxAttempts - attempts ≤ k → attempts ≤ maxAttempts →
      (solveChallengeLoopFrom env attempts).2 ≤ maxAttempts := by
  intro k
  induction k with
  | zero =>
    intro attempts h1 h2
    rw [solveChallengeLoopFrom]
    have : ¬ attempts < maxAttempts := by omega
    simp [this, h2]
  | succ k ih =>
    intro attempts h1 h2
    rw [solveChallengeLoopFrom]
    by_cases h : attempts < maxAttempts
    · simp only [h, dif_pos]
      cases roundToken (env attempts) with
      | none => exact ih (attempts + 1) (by omega) (by omega)
      | some tok => simpa using h
    · simp [h, h2]

theorem solveChallengeLoopFrom_all_fail (env : Nat → RoundEnv)
    (hfail : ∀ n, n < maxAttempts → roundToken (env n) = none) :
    ∀ k attempts, maxAttempts - attempts ≤ k → attempts ≤ maxAttempts →
      solveChallengeLoopFrom env attempts = (none, maxAttempts) := by
  intro k
  induction k with
  | zero =>
    intro attempts h1 h2
    rw [solveChallengeLoopFrom]
    have h3 : ¬ attempts < maxAttempts := by omega
    have h4 : attempts = maxAttempts := by omega
    simp [h3, h4]
  | succ k ih =>
    intro attempts h1 h2
    rw [solveChallengeLoopFrom]
    by_cases h : attempts < maxAttempts
    · simp only [h, dif_pos, hfail attempts h]
      exact ih (attempts + 1) (by omega) (by omega)
    · have h4 : attempts = maxAttempts := by omega
      simp [h, h4]

/-- Claim C2: for every environment behaviour, the visual round loop performs
at most maxAttempts (4) iterations, and when every round fails to produce a
token it returns null normally after exactly maxAttempts iterations (the
definition of `solveChallengeLoopFrom` is total, so no infinite loop; failures
are values, not exceptions — the source's only uncaught throws are caught in
`solveCaptchaChallenge`, which also returns null). -/
theorem claim_C2_loop_bounded (env : Nat → RoundEnv) :
    (solveChallengeLoop env).2 ≤ maxAttempts ∧
    ((∀ n, n < maxAttempts → roundToken (env n) = none) →
      solveChallengeLoop env = (none, maxAttempts)) := by
  constructor
  · exact solveChallengeLoopFrom_snd_le env maxAttempts 0 (by omega) (by omega)
  · intro hfail
    exact solveChallengeLoopFrom_all_fail env hfail maxAttempts 0 (by omega) (by omega)

/-- Witness for claim C2: an environment in which every round fails
(no valid challenge ever appears). -/
theorem claim_C2_witness :
    (solveChallengeLoop fun _ => ⟨false, false, []⟩) = (none, maxAttempts) :=
  (claim_C2_loop_bounded fun _ => ⟨false, false, []⟩).2 fun _ _ => rfl

/-! ## Checkbox click race (visual variant) -/

/-- Outcome of the race between `waitForToken` and `waitForChallenge` after
clicking the checkbox (lines 683-686). -/
inductive CheckboxRace where
  | token (tok : String)
  | challenge
deriving Repr, DecidableEq

/-- `handleCheckboxClick` (lines 671-698): null when the checkbox handle is
missing or the click throws; the token when the token event wins the race;
null when the challenge-open event wins. -/
def handleCheckboxClick (checkboxFound clickOk : Bool) (race : CheckboxRace) :
    Option String :=
  if ¬ checkboxFound then none
  else if ¬ clickOk then none
  else
    match race with
    | .token tok => some tok
    | .challenge => none

/-- `solveCaptchaChallenge`, visual variant (lines 630-657): an immediate
token from `handleCheckboxClick` is returned at once; otherwise the round
loop runs.  The second component counts challenge round iterations. -/
def solveCaptchaChallengeVisual (checkboxFound clickOk : Bool)
    (race : CheckboxRace) (env : Nat → RoundEnv) : Option String × Nat :=
  match handleCheckboxClick checkboxFound clickOk race with
  | some tok => (some tok, 0)
  | none => solveChallengeLoop env

/-- Claim C4: whenever the token event wins the post-checkbox-click race, the
solver returns that token and performs zero challenge rounds (no tile
analysis, no clicks), for every round-loop environment. -/
theorem claim_C4_token_short_circuit (tok : String) (env : Nat → RoundEnv) :
    solveCaptchaChallengeVisual true true (.token tok) env = (some tok, 0) :=
  rfl

/-! ## SolverProtocol, audio variant
Embeds the audio `solveCaptchaChallenge` loop (part_000 lines 1596-1803).
Each attempt reads one `AudioEnv` describing what the page does during that
attempt. -/

/-- Outcome of the race between `waitForAudioChallenge` and
`checkForBlockingMessage` (lines 1725-1731): the audio URL, the blocked
("Try again later") message, or neither (both resolved null). -/
inductive AudioRace where
  | audio (url : String)
  | blocked
  | neither
deriving Repr, DecidableEq

/-- Outcome of the race after clicking verify (lines 1763-1767): token,
"multiple solutions required", blocked, or no result. -/
inductive AudioVerify where
  | token (tok : String)
  | needMore
  | blocked
  | nothing
deriving Repr, DecidableEq

/-- Environment for one audio attempt: whether the first-attempt audio-button
click succeeds (lines 1678-1722; later attempts skip the click), the
audio-vs-blocked race outcome, the result of `downloadAndTranscribeAudio`
(null on failure), and the post-verify race outcome. -/
structure AudioEnv where
  buttonClickOk : Bool
  race : AudioRace
  transcription : Option String
  verify : AudioVerify
deriving Repr, DecidableEq

def maxAudioAttempts : Nat := 3

/-- The audio attempt loop (lines 1664-1797), parameterized over the
0-indexed attempt counter: `while (audioAttempts < maxAudioAttempts)`.
Both blocked observations return null immediately (lines 1738-1742 and
1779-1783); all other non-token outcomes `continue`.  The second component is
the number of attempts performed. -/
def audioChallengeLoopFrom (env : Nat → AudioEnv) (attempt : Nat) :
    Option String × Nat :=
  if _h : attempt < maxAudioAttempts then
    let e := env attempt
    if attempt = 0 ∧ ¬ e.buttonClickOk then audioChallengeLoopFrom env (attempt + 1)
    else
      match e.race with
      | .neither => audioChallengeLoopFrom env (attempt + 1)
      | .blocked => (none, attempt + 1)
      | .audio _ =>
        match e.transcription with
        | none => audioChallengeLoopFrom env (attempt + 1)
        | some _ =>
          match e.verify with
          | .token tok => (some tok, attempt + 1)
          | .blocked => (none, attempt + 1)
          | .needMore => audioChallengeLoopFrom env (attempt + 1)
          | .nothing => audioChallengeLoopFrom env (attempt + 1)
  else (none, attempt)
termination_by maxAudioAttempts - attempt
decreasing_by all_goals simp_wf; omega

def audioChallengeLoop (env : Nat → AudioEnv) : Option String × Nat :=
  audioChallengeLoopFrom env 0

/-- Claim C3: whenever a blocked signal is observed during an audio attempt —
after the audio-button race or after verification — the session terminates at
once with a null result, consuming only that attempt, regardless of how many
of the maxAudioAttempts (3) remain. -/
theorem claim_C3_blocked_terminates (env : Nat → AudioEnv) (n : Nat)
    (hn : n < maxAudioAttempts)
    (hclick : n = 0 → (env n).buttonClickOk = true) :
    ((env n).race = .blocked → audioChallengeLoopFrom env n = (none, n + 1)) ∧
    (∀ url t, (env n).race = .audio url → (env n).transcription = some t →
      (env n).verify = .blocked → audioChallengeLoopFrom env n = (none, n + 1)) := by
  have hcond : ¬ (n = 0 ∧ ¬ (env n).buttonClickOk = true) := by
    rintro ⟨rfl, hc⟩
    exact hc (hclick rfl)
  constructor
  · intro hrace
    rw [audioChallengeLoopFrom]
    simp only [hn, dif_pos, hcond, if_false, hrace]
  · intro url t hrace htrans hverify
    rw [audioChallengeLoopFrom]
    simp only [hn, dif_pos, hcond, if_false, hrace, htrans, hverify]

/-- Witness for claim C3: at the second attempt (one attempt of budget
remaining after it), a blocked signal after the audio-button race ends the
session with null and no third attempt. -/
theorem claim_C3_witness :
    audioChallengeLoopFrom
      (fun _ => ⟨true, .blocked, none, .nothing⟩) 1 = (none, 2) :=
  (claim_C3_blocked_terminates (fun _ => ⟨true, .blocked, none, .nothing⟩) 1
    (by decide) (fun h => absurd h (by decide))).1 rfl

/-! ## TileAnalyzer: `analyzeWithGemini` (part_000 lines 469-569)
The vision call is an external service: its outcome is an input.  `none`
stands for any step of the try-block throwing before the response is parsed
(file read, transport, model error); `some r` is the raw response text.
`JSON.parse` plus the `has_match` field reads are modelled by a parse oracle
returning the entry list `Object.entries` would yield (keys in order, with
each entry's has_match boolean), `none` when parsing throws. -/

/-- The fence-stripping step (lines 542-547): if the response contains a
```json fence take the text between the fences, else if it contains any
``` fence take the text between those, else use the response as is. -/
def stripFence (response : String) : String :=
  if (response.splitOn "```json").length > 1 then
    ((((response.splitOn "```json").getD 1 "").splitOn "```").getD 0 "").trim
  else if (response.splitOn "```").length > 1 then
    ((((response.splitOn "```").getD 1 "").splitOn "```").getD 0 "").trim
  else response

/-- `analyzeWithGemini` (lines 469-569): null when the call fails or the
parse fails; otherwise the keys of the entries whose has_match is true
(lines 550-553), in order. -/
def analyzeWithGemini (callResult : Option String)
    (parseJson : String → Option (List (String × Bool))) : Option (List String) :=
  match callResult with
  | none => none
  | some response =>
    match parseJson (stripFence response) with
    | none => none
    | some entries => some ((entries.filter fun e => e.2).map fun e => e.1)

/-! ## `handleChallengeTiles` (part_000 lines 793-870) -/

/-- Environment for one pass of the tile loop: whether the tiles-ready wait
succeeds within 10s, the `takeScreenshotAndAnalyze` result (null = Gemini
failure; a list = coordinates to click), and the per-coordinate `clickTile`
outcome. -/
structure TileRoundEnv where
  tilesReadyOk : Bool
  analysis : Option (List String)
  clickOk : String → Bool

def maxDynamicIterations : Nat := 4

/-- `handleChallengeTiles` (lines 793-870), parameterized over the
`dynamicIteration` counter: a `while (true)` loop; a tiles-ready timeout
returns false; a null analysis returns false; an empty analysis returns true
(proceed to verify); otherwise each coordinate is clicked (a failed click
returns false); a static challenge breaks after one pass; a dynamic challenge
increments the counter and breaks once it reaches maxDynamicIterations.
The second component counts the analysis rounds performed. -/
def handleChallengeTilesFrom (isDynamic : Bool) (env : Nat → TileRoundEnv)
    (it : Nat) : Bool × Nat :=
  let e := env it
  if ¬ e.tilesReadyOk then (false, 0)
  else
    match e.analysis with
    | none => (false, 1)
    | some [] => (true, 1)
    | some (c :: cs) =>
      if ¬ ((c :: cs).all e.clickOk) then (false, 1)
      else if ¬ isDynamic then (true, 1)
      else if _h : maxDynamicIterations ≤ it + 1 then (true, 1)
      else
        let r := handleChallengeTilesFrom isDynamic env (it + 1)
        (r.1, r.2 + 1)
termination_by maxDynamicIterations - it
decreasing_by simp_wf; omega

def handleChallengeTiles (isDynamic : Bool) (env : Nat → TileRoundEnv) :
    Bool × Nat :=
  handleChallengeTilesFrom isDynamic env 0

theorem handleChallengeTilesFrom_dynamic_full (env : Nat → TileRoundEnv)
    (hready : ∀ i, i < maxDynamicIterations → (env i).tilesReadyOk = true)
    (hmatch : ∀ i, i < maxDynamicIterations →
      ∃ c cs, (env i).analysis = some (c :: cs) ∧ ((c :: cs).all (env i).clickOk) = true) :
    ∀ k it, maxDynamicIterations - it ≤ k → it < maxDynamicIterations →
      handleChallengeTilesFrom true env it = (true, maxDynamicIterations - it) := by
  intro k
  induction k with
  | zero => intro it h1 h2; omega
  | succ k ih =>
    intro it h1 h2
    obtain ⟨c, cs, hc, hclick⟩ := hmatch it h2
    rw [handleChallengeTilesFrom]
    simp only [hready it h2, Bool.not_true, Bool.false_eq_true, if_false, hc,
      hclick, Bool.not_false, Bool.true_eq_false, Bool.not_eq_true]
    by_cases hlast : maxDynamicIterations ≤ it + 1
    · have : maxDynamicIterations - it = 1 := by omega
      simp [hlast, this]
    · have hrec := ih (it + 1) (by omega) (by omega)
      simp only [hlast, dif_neg, not_false_iff, hrec]
      have : maxDynamicIterations - it = (maxDynamicIterations - (it + 1)) + 1 := by omega
      simp [this]

/-- Claim C5: a dynamic challenge whose every pass finds at least one
matching tile (and whose clicks succeed and tiles-ready waits succeed)
performs exactly maxDynamicIterations (4) analysis rounds and then exits to
verification with success; a static challenge under the same conditions
performs exactly one analysis-and-click round. -/
theorem claim_C5_dynamic_iterations (env envS : Nat → TileRoundEnv)
    (hready : ∀ i, i < maxDynamicIterations → (env i).tilesReadyOk = true)
    (hmatch : ∀ i, i < maxDynamicIterations →
      ∃ c cs, (env i).analysis = some (c :: cs) ∧ ((c :: cs).all (env i).clickOk) = true)
    (hreadyS : (envS 0).tilesReadyOk = true)
    (hmatchS : ∃ c cs, (envS 0).analysis = some (c :: cs) ∧
      ((c :: cs).all (envS 0).clickOk) = true) :
    handleChallengeTiles true env = (true, maxDynamicIterations) ∧
    handleChallengeTiles false envS = (true, 1) := by
  constructor
  · have := handleChallengeTilesFrom_dynamic_full env hready hmatch
      maxDynamicIterations 0 (by omega) (by simp [maxDynamicIterations])
    simpa [handleChallengeTiles] using this
  · obtain ⟨c, cs, hc, hclick⟩ := hmatchS
    unfold handleChallengeTiles
    rw [handleChallengeTilesFrom]
    simp [hreadyS, hc, hclick]

/-- Witness for claim C5: an environment that is always ready, always finds
tile [1,1], and always clicks successfully. -/
theorem claim_C5_witness :
    handleChallengeTiles true (fun _ => ⟨true, some ["[1,1]"], fun _ => true⟩) =
      (true, maxDynamicIterations) ∧
    handleChallengeTiles false (fun _ => ⟨true, some ["[1,1]"], fun _ => true⟩) =
      (true, 1) :=
  claim_C5_dynamic_iterations
    (fun _ => ⟨true, some ["[1,1]"], fun _ => true⟩)
    (fun _ => ⟨true, some ["[1,1]"], fun _ => true⟩)
    (fun _ _ => rfl)
    (fun _ _ => ⟨"[1,1]", [], rfl, rfl⟩)
    rfl
    ⟨"[1,1]", [], rfl, rfl⟩

/-- Claim C6: the analyzer returns null exactly when the vision call or the
response parse fails; a successful call whose parsed entries mark no tile as
a match yields the empty list (not null); and the caller distinguishes the
two: a null analysis makes `handleChallengeTiles` fail the round, while an
empty analysis makes it succeed (proceed to verify). -/
theorem claim_C6_empty_vs_null
    (parseJson : String → Option (List (String × Bool))) :
    (analyzeWithGemini none parseJson = none) ∧
    (∀ r, analyzeWithGemini (some r) parseJson = none ↔
      parseJson (stripFence r) = none) ∧
    (∀ r entries, parseJson (stripFence r) = some entries →
      (∀ e ∈ entries, e.2 = false) →
      analyzeWithGemini (some r) parseJson = some []) ∧
    (∀ isDynamic env it, (env it : TileRoundEnv).tilesReadyOk = true →
      (env it).analysis = none →
      handleChallengeTilesFrom isDynamic env it = (false, 1)) ∧
    (∀ isDynamic env it, (env it : TileRoundEnv).tilesReadyOk = true →
      (env it).analysis = some [] →
      handleChallengeTilesFrom isDynamic env it = (true, 1)) := by
  refine ⟨rfl, ?_, ?_, ?_, ?_⟩
  · intro r
    unfold analyzeWithGemini
    cases hp : parseJson (stripFence r) <;> simp [hp]
  · intro r entries hp hall
    have hfil : entries.filter (fun e => e.2) = [] := by
      rw [List.filter_eq_nil_iff]
      intro e he
      simp [hall e he]
    simp [analyzeWithGemini, hp, hfil]
  · intro isDynamic env it hready hnone
    rw [handleChallengeTilesFrom]
    simp [hready, hnone]
  · intro isDynamic env it hready hempty
    rw [handleChallengeTilesFrom]
    simp [hready, hempty]

/-- Witness for claim C6: a parse oracle marking no tile as a match yields
the empty list on a concrete response, and concrete caller environments show
the false/true distinction. -/
theorem claim_C6_witness :
    analyzeWithGemini (some "```json\nOBJ\n```")
        (fun _ => some [("[1,1]", false), ("[1,2]", false)]) =
      some [] ∧
    handleChallengeTilesFrom true (fun _ => ⟨true, none, fun _ => true⟩) 0 = (false, 1) ∧
    handleChallengeTilesFrom true (fun _ => ⟨true, some [], fun _ => true⟩) 0 = (true, 1) :=
  ⟨(claim_C6_empty_vs_null
        (fun _ => some [("[1,1]", false), ("[1,2]", false)])).2.2.1
      "```json\nOBJ\n```" [("[1,1]", false), ("[1,2]", false)] rfl (by decide),
   (claim_C6_empty_vs_null (fun _ => none)).2.2.2.1 true
     (fun _ => ⟨true, none, fun _ => true⟩) 0 rfl rfl,
   (claim_C6_empty_vs_null (fun _ => none)).2.2.2.2 true
     (fun _ => ⟨true, some [], fun _ => true⟩) 0 rfl rfl⟩

/-! ## AudioTranscriber: `downloadAndTranscribeAudio` (part_000 lines 1272-1345)
The HTTP layer and the wit.ai service are external: the result of download
attempt `n` is the input `env n` (`ok d` abbreviates a 200 response whose
body is the blob identified by `d`), and the transcription step — token
choice, wit.ai request and last-"text"-field extraction — is the oracle
`transcribe` (null when it fails or no text field is present).  An event
trace records the externally visible steps in order. -/

inductive DownloadResult where
  | ok (data : Nat)
  | httpError (status : Nat)
  | transportError
deriving Repr, DecidableEq

inductive AudioStep where
  | downloadAttempt (n : Nat)
  | sleepMs (ms : Nat)
  | transcribeCall
deriving Repr, DecidableEq

def maxDownloadAttempts : Nat := 3

/-- The download retry loop (lines 1275-1302): `while (attempts <
maxDownloadAttempts)`, incrementing the counter at the top of the try-block;
a non-200 status throws, joining transport errors in the catch; the catch
returns null when the counter has reached maxDownloadAttempts, else sleeps
1000ms and retries.  Returns the downloaded data (if any), the final counter
value, and the event trace. -/
def downloadLoop (env : Nat → DownloadResult) (attempts : Nat) :
    Option Nat × Nat × List AudioStep :=
  if _h : attempts < maxDownloadAttempts then
    let a := attempts + 1
    match env attempts with
    | .ok d => (some d, a, [.downloadAttempt a])
    | .httpError _ =>
      if a = maxDownloadAttempts then (none, a, [.downloadAttempt a])
      else
        let r := downloadLoop env a
        (r.1, r.2.1, .downloadAttempt a :: .sleepMs 1000 :: r.2.2)
    | .transportError =>
      if a = maxDownloadAttempts then (none, a, [.downloadAttempt a])
      else
        let r := downloadLoop env a
        (r.1, r.2.1, .downloadAttempt a :: .sleepMs 1000 :: r.2.2)
  else (none, attempts, [])
termination_by maxDownloadAttempts - attempts
decreasing_by all_goals simp_wf; omega

/-- `downloadAndTranscribeAudio` (lines 1272-1345): run the download loop
from a zero counter; on null, return null without transcribing; on success,
transcribe the downloaded data. -/
def downloadAndTranscribeAudio (env : Nat → DownloadResult)
    (transcribe : Nat → Option String) : Option String × Nat × List AudioStep :=
  let r := downloadLoop env 0
  match r.1 with
  | none => (none, r.2.1, r.2.2)
  | some d => (transcribe d, r.2.1, r.2.2 ++ [.transcribeCall])

/-- Claim C7: the audio download is attempted at most 3 times with a fixed
1-second sleep between attempts; if the first two attempts fail and the third
succeeds, transcription proceeds on the downloaded data; after 3 consecutive
failures the function returns null having performed exactly 3 download
attempts (no 4th) and no transcription call. -/
theorem claim_C7_download_retry (env : Nat → DownloadResult)
    (transcribe : Nat → Option String)
    (h0 : ∀ d, env 0 ≠ .ok d) (h1 : ∀ d, env 1 ≠ .ok d) :
    (∀ d, env 2 = .ok d →
      downloadAndTranscribeAudio env transcribe =
        (transcribe d, 3,
         [.downloadAttempt 1, .sleepMs 1000, .downloadAttempt 2, .sleepMs 1000,
          .downloadAttempt 3, .transcribeCall])) ∧
    ((∀ d, env 2 ≠ .ok d) →
      downloadAndTranscribeAudio env transcribe =
        (none, 3,
         [.downloadAttempt 1, .sleepMs 1000, .downloadAttempt 2, .sleepMs 1000,
          .downloadAttempt 3])) := by
  have step01 : ∀ n, n < 2 → (∀ d, env n ≠ .ok d) →
      downloadLoop env n =
        (let r := downloadLoop env (n + 1)
         (r.1, r.2.1, .downloadAttempt (n + 1) :: .sleepMs 1000 :: r.2.2)) := by
    intro n hn hne
    rw [downloadLoop]
    have hlt : n < maxDownloadAttempts := by
      simp only [maxDownloadAttempts]; omega
    have hne3 : ¬ n + 1 = maxDownloadAttempts := by
      simp only [maxDownloadAttempts]; omega
    cases henv : env n with
    | ok d => exact absurd henv (hne d)
    | httpError s => simp [hlt, hne3]
    | transportError => simp [hlt, hne3]
  constructor
  · intro d h2
    unfold downloadAndTranscribeAudio
    rw [step01 0 (by omega) h0, step01 1 (by omega) h1, downloadLoop]
    simp [maxDownloadAttempts, h2]
  · intro h2
    unfold downloadAndTranscribeAudio
    rw [step01 0 (by omega) h0, step01 1 (by omega) h1, downloadLoop]
    cases henv : env 2 with
    | ok d => exact absurd henv (h2 d)
    | httpError s => simp [maxDownloadAttempts]
    | transportError => simp [maxDownloadAttempts]

/-- Witness for claim C7: a 503 then a transport error then a successful
download, against which transcription runs; and three straight transport
errors, returning null untranscribed. -/
theorem claim_C7_witness :
    downloadAndTranscribeAudio
        (fun n => if n = 0 then .httpError 503
                  else if n = 1 then .transportError else .ok 7)
        (fun d => some (toString d)) =
      (some "7", 3,
       [.downloadAttempt 1, .sleepMs 1000, .downloadAttempt 2, .sleepMs 1000,
        .downloadAttempt 3, .transcribeCall]) ∧
    downloadAndTranscribeAudio (fun _ => .transportError)
        (fun d => some (toString d)) =
      (none, 3,
       [.downloadAttempt 1, .sleepMs 1000, .downloadAttempt 2, .sleepMs 1000,
        .downloadAttempt 3]) := by
  constructor
  · have h := (claim_C7_download_retry
        (fun n => if n = 0 then .httpError 503
                  else if n = 1 then .transportError else .ok 7)
        (fun d => some (toString d))
        (fun d h => by simp at h) (fun d h => by simp at h)).1 7 (by simp)
    simpa using h
  · exact (claim_C7_download_retry (fun _ => .transportError)
        (fun d => some (toString d))
        (fun d h => by simp at h) (fun d h => by simp at h)).2
      (fun d h => by simp at h)

/-! ## `CaptchaWatcher._pollForCaptchaReady` (part_000 lines 146-201)
An outer `while (this.isWatching)` loop polls the frame set for the anchor
frame; once found, an inner `while (this.isWatching && checkCount < 50)` loop
evaluates checkbox readiness.  On the first ready evaluation the callback is
invoked and the detector returns.  The environment gives, per 100ms tick:
the isWatching flag (cleared externally by stopWatching/cleanup), whether the
anchor frame is currently found, and whether the checkbox evaluates as
clickable.  `inner = some c` carries the inner loop's checkCount; the fuel
bounds the modelled scheduler ticks (the real loop may run forever while
isWatching holds).  The result is the number of onCaptchaReady invocations
within the fuelled window. -/

def pollForCaptchaReady (watching frameFound ready : Nat → Bool)
    (t : Nat) (inner : Option Nat) : Nat → Nat
  | 0 => 0
  | fuel + 1 =>
    match inner with
    | none =>
      if ¬ watching t then 0
      else if frameFound t then pollForCaptchaReady watching frameFound ready (t + 1) (some 0) fuel
      else pollForCaptchaReady watching frameFound ready (t + 1) none fuel
    | some c =>
      if ¬ (watching t = true ∧ c < 50) then
        pollForCaptchaReady watching frameFound ready (t + 1) none fuel
      else if ready t then 1
      else pollForCaptchaReady watching frameFound ready (t + 1) (some (c + 1)) fuel

/-- Claim C8: across any single execution of the checkbox-ready detector —
any watching/frame/readiness behaviour, any starting point, and any number of
scheduler ticks — the onCaptchaReady callback is invoked at most once: the
detector returns right after its first invocation and never re-arms. -/
theorem claim_C8_ready_fires_once (watching frameFound ready : Nat → Bool) :
    ∀ fuel t inner, pollForCaptchaReady watching frameFound ready t inner fuel ≤ 1 := by
  intro fuel
  induction fuel with
  | zero => intro t inner; simp [pollForCaptchaReady]
  | succ fuel ih =>
    intro t inner
    simp only [pollForCaptchaReady]
    cases inner with
    | none =>
      by_cases hw : watching t
      · by_cases hf : frameFound t <;> simp [hw, hf, ih]
      · simp [hw]
    | some c =>
      by_cases hwc : watching t = true ∧ c < 50
      · by_cases hr : ready t <;> simp [hwc, hr, ih]
      · simp [hwc, ih]

/-! ## Token polling and transient evaluation failures
Two loops read the page state for the response token.

`CaptchaWatcher._pollForToken` (part_000 lines 345-374): `while
(this.isWatching)`, evaluate the token field inside a try/catch; a caught
evaluation error is logged unless its message says the execution context was
destroyed, and in either case the loop sleeps 100ms and continues.

`waitForToken`, audio variant (part_000 lines 1397-1429): a `for` loop of up
to maxAttempts iterations; its catch likewise suppresses the log for
context-destroyed / detached-frame / target-closed messages, but then
executes `return null` for every caught evaluation error, transient or not —
the wait aborts instead of continuing. -/

/-- Result of one `page.evaluate` read of the token field: the field's value
(null until a token exists), or a thrown error, with `contextDestroyed`
telling whether its message marks it as a transient navigation teardown. -/
inductive EvalOutcome where
  | value (token : Option String)
  | failure (contextDestroyed : Bool)
deriving Repr, DecidableEq

/-- `_pollForToken` (lines 345-374), fuelled per 100ms tick: returns the
token delivered to onTokenFound within the window, if any. -/
def pollForToken (watching : Nat → Bool) (eval : Nat → EvalOutcome)
    (t : Nat) : Nat → Option String
  | 0 => none
  | fuel + 1 =>
    if ¬ watching t then none
    else
      match eval t with
      | .value (some tok) => some tok
      | .value none => pollForToken watching eval (t + 1) fuel
      | .failure _ => pollForToken watching eval (t + 1) fuel

/-- `waitForToken`, audio variant (lines 1397-1429): iterates `attempt` while
`remaining` fuel is left (`remaining = maxAttempts - attempt` at the call);
any caught evaluation error returns null at once.  The second component is
the number of iterations performed. -/
def waitForTokenAudio (evalR : Nat → EvalOutcome) :
    Nat → Nat → Option String × Nat
  | attempt, 0 => (none, attempt)
  | attempt, remaining + 1 =>
    match evalR attempt with
    | .value (some tok) => (some tok, attempt + 1)
    | .value none => waitForTokenAudio evalR (attempt + 1) remaining
    | .failure _ => (none, attempt + 1)

/-- Claim C9 counterexample: the claim fails for the audio variant's
`waitForToken`.  With a context-destroyed evaluation failure at its first
iteration and a token available from the next tick on, the observer's
`_pollForToken` swallows the failure and delivers the token, but
`waitForTokenAudio` — one of the repository's polling loops that read page
state — stops after one iteration and surfaces null instead of continuing. -/
theorem claim_C9_counterexample :
    pollForToken (fun _ => true)
        (fun n => if n = 0 then .failure true else .value (some "tok")) 0 50 =
      some "tok" ∧
    waitForTokenAudio
        (fun n => if n = 0 then .failure true else .value (some "tok")) 0 50 =
      (none, 1) := by
  constructor <;> rfl

/-- Claim C9 (amended): in the observer's token-polling loop every
evaluation failure — context-destroyed or not — is swallowed and polling
continues on the next tick; but in the audio variant's `waitForToken`, every
evaluation failure (including transient context-destroyed ones) immediately
aborts the wait with a null result after that iteration instead of
continuing. -/
theorem claim_C9_transient_errors (watching : Nat → Bool)
    (eval evalR : Nat → EvalOutcome) :
    (∀ t fuel b, watching t = true → eval t = .failure b →
      pollForToken watching eval t (fuel + 1) =
        pollForToken watching eval (t + 1) fuel) ∧
    (∀ attempt remaining b, evalR attempt = .failure b →
      waitForTokenAudio evalR attempt (remaining + 1) = (none, attempt + 1)) := by
  constructor
  · intro t fuel b hw he
    rw [pollForToken]
    simp [hw, he]
  · intro attempt remaining b he
    rw [waitForTokenAudio]
    simp [he]

/-- Witness for claim C9 (amended) at a concrete trace: a transient failure
at tick 0 is skipped by the observer loop, and aborts the audio wait. -/
theorem claim_C9_witness :
    pollForToken (fun _ => true)
        (fun n => if n = 0 then .failure true else .value (some "tok")) 0 6 =
      pollForToken (fun _ => true)
        (fun n => if n = 0 then .failure true else .value (some "tok")) 1 5 ∧
    waitForTokenAudio (fun _ => .failure true) 0 50 = (none, 1) :=
  ⟨(claim_C9_transient_errors (fun _ => true)
      (fun n => if n = 0 then .failure true else .value (some "tok"))
      (fun _ => .failure true)).1 0 5 true rfl rfl,
   (claim_C9_transient_errors (fun _ => true)
      (fun n => if n = 0 then .failure true else .value (some "tok"))
      (fun _ => .failure true)).2 0 49 true rfl⟩

/-! ## `clickTile` (part_000 lines 872-890)
The in-page script does `coord.substring(1, coord.length - 1)` (drop the
first and last character unconditionally), splits on a comma, converts the
first two parts with `Number`, derives the grid size from the number of tile
elements actually rendered (`tiles.length === 9 ? 3 : 4`), computes the flat
index `(row - 1) * gridSize + (col - 1)` and clicks `tiles[index]` when it
exists, returning false otherwise (and false on a thrown evaluation error).
The declared grid type is passed into the script but never read.  Splitting
and number conversion are given char-level structural definitions (the
library string functions do not reduce definitionally); `Number` is modelled
on optionally-signed decimal integer parts — the only values the "[row,col]"
coordinate format produces — with every other part mapping to none (NaN),
which like a NaN index selects no tile. -/

def splitOnCommaChars : List Char → List (List Char)
  | [] => [[]]
  | c :: rest =>
    if c = ',' then [] :: splitOnCommaChars rest
    else
      match splitOnCommaChars rest with
      | [] => [[c]]
      | g :: gs => (c :: g) :: gs

def digitsToNat : List Char → Nat → Option Nat
  | [], acc => some acc
  | c :: rest, acc =>
    if c.isDigit then digitsToNat rest (acc * 10 + (c.toNat - 48)) else none

def toNumber (cs : List Char) : Option Int :=
  match cs with
  | '-' :: rest =>
    if rest.isEmpty then none
    else (digitsToNat rest 0).map fun n => -(n : Int)
  | _ => (digitsToNat cs 0).map fun n => (n : Int)

/-- The coordinate-string parse performed at line 877: strip the first and
last character, split on commas, convert the first two parts; none when
either conversion yields NaN or there is no second part. -/
def parseCoord (coord : String) : Option (Int × Int) :=
  let inner := (coord.data.drop 1).dropLast
  match splitOnCommaChars inner with
  | r :: c :: _ =>
    match toNumber r, toNumber c with
    | some row, some col => some (row, col)
    | _, _ => none
  | _ => none

/-- `clickTile` (lines 872-890): the second component is the index of the
tile clicked, none when no click happens. -/
def clickTile (gridType : String) (numTiles : Nat) (coord : String) :
    Bool × Option Nat :=
  match parseCoord coord with
  | none => (false, none)
  | some (row, col) =>
    let gridSize : Int := if numTiles = 9 then 3 else 4
    let index : Int := (row - 1) * gridSize + (col - 1)
    if 0 ≤ index ∧ index < (numTiles : Int) then (true, some index.toNat)
    else (false, none)

/-- Claim C10: for every coordinate string parsing as [row,col], clickTile
targets the flat index (row-1)*g+(col-1) where g is 3 exactly when 9 tiles
are rendered and 4 otherwise — independent of the declared grid type — and
when no tile exists at that index it returns false with no tile clicked
(and no exception: the embedding is total, matching the try/catch at
lines 886-889). -/
theorem claim_C10_clickTile_index (gridType gt2 : String) (numTiles : Nat)
    (coord : String) (row col : Int)
    (hparse : parseCoord coord = some (row, col)) :
    (clickTile gridType numTiles coord =
      if 0 ≤ (row - 1) * (if numTiles = 9 then (3 : Int) else 4) + (col - 1) ∧
         (row - 1) * (if numTiles = 9 then (3 : Int) else 4) + (col - 1) <
           (numTiles : Int)
       then (true,
         some ((row - 1) * (if numTiles = 9 then (3 : Int) else 4) + (col - 1)).toNat)
       else (false, none)) ∧
    clickTile gt2 numTiles coord = clickTile gridType numTiles coord := by
  constructor
  · simp only [clickTile, hparse]
  · rfl

/-- Witness for claim C10: on a rendered 3×3 grid (9 tiles) coordinate
[4,4] is out of range and clicks nothing; on a 16-tile grid [1,2] clicks
flat index 1. -/
theorem claim_C10_witness :
    clickTile "rc-imageselect-table-33" 9 "[4,4]" = (false, none) ∧
    clickTile "rc-imageselect-table-44" 16 "[1,2]" = (true, some 1) := by
  constructor
  · have h := (claim_C10_clickTile_index "rc-imageselect-table-33"
      "rc-imageselect-table-44" 9 "[4,4]" 4 4 rfl).1
    simpa using h
  · have h := (claim_C10_clickTile_index "rc-imageselect-table-44"
      "rc-imageselect-table-33" 16 "[1,2]" 1 2 rfl).1
    simpa using h

end RecaptchaSolver
